import Mathlib

/-!
Verification of the openGemini python client's point-serialization engine
(`point.py`) and request-construction layer (`client.py`).

The embedding is shallow: python dicts become insertion-ordered association
lists with last-write-wins assignment, python values that flow into field
maps become the inductive `PyVal` (with `isinstance` overlap between
booleans and integers modelled explicitly), floats are carried as a
finiteness flag plus their decimal rendering (no float arithmetic occurs in
the source), and fallible code returns `Except PyErr`.
-/

namespace OpenGemini

/-- Errors surfaced by the modelled python code. -/
inductive PyErr where
  | valueError
  | attrError
  | assertError
  deriving DecidableEq, Repr

/-! ### Insertion-ordered dictionaries (python `dict`) -/

/-- `d[k] = v` on an insertion-ordered dict: replace in place when the key is
present, append otherwise. -/
def pset {α : Type} : List (String × α) → String → α → List (String × α)
  | [], k, v => [(k, v)]
  | (k', v') :: t, k, v =>
      if k' = k then (k', v) :: t else (k', v') :: pset t k v

/-- `d.get(k)`: first (and, for a genuine dict, only) binding of `k`. -/
def pget {α : Type} : List (String × α) → String → Option α
  | [], _ => Option.none
  | (k', v') :: t, k => if k' = k then some v' else pget t k

/-- `d.update(u)`: assign every binding of `u` into `d`, in order. -/
def dictUpdate {α : Type} (d u : List (String × α)) : List (String × α) :=
  u.foldl (fun acc kv => pset acc kv.1 kv.2) d

/-! ### Substring search (used to state facts about generated DDL text) -/

/-- Whether `p` occurs at the head of `l`. -/
def matchesAt : List Char → List Char → Bool
  | [], _ => true
  | _ :: _, [] => false
  | p :: ps, c :: cs => (p = c) && matchesAt ps cs

/-- Whether `p` occurs anywhere in `l`. -/
def hasSub (p : List Char) : List Char → Bool
  | [] => p.isEmpty
  | c :: t => matchesAt p (c :: t) || hasSub p t

/-- Whether `pat` is a contiguous substring of `s`. -/
def strContains (s pat : String) : Bool :=
  hasSub pat.toList s.toList

/-! ### Escaping (`str.maketrans` / `str.translate` tables of point.py) -/

/-- `str.translate`: per-character substitution with no context. -/
def pyTranslate (table : Char → String) (s : String) : String :=
  s.toList.foldr (fun c acc => table c ++ acc) ""

/-- The `escape_measurement` table: comma, space, newline, tab, CR. -/
def escapeMeasurementTable (c : Char) : String :=
  if c = ',' then "\\,"
  else if c = ' ' then "\\ "
  else if c = '\n' then "\\n"
  else if c = '\t' then "\\t"
  else if c = '\r' then "\\r"
  else String.singleton c

/-- The `escape_name` table: comma, space, `=`, newline, tab, CR. -/
def escapeNameTable (c : Char) : String :=
  if c = ',' then "\\,"
  else if c = ' ' then "\\ "
  else if c = '=' then "\\="
  else if c = '\n' then "\\n"
  else if c = '\t' then "\\t"
  else if c = '\r' then "\\r"
  else String.singleton c

/-- The `escape_field_value` table: double quote and backslash. -/
def escapeFieldValueTable (c : Char) : String :=
  if c = '"' then "\\\""
  else if c = '\\' then "\\\\"
  else String.singleton c

def escapeMeasurement (s : String) : String := pyTranslate escapeMeasurementTable s

def escapeName (s : String) : String := pyTranslate escapeNameTable s

def escapeFieldValue (s : String) : String := pyTranslate escapeFieldValueTable s

/-! ### Python values reaching a point's field map -/

/-- A python float as the encoder sees it: `math.isfinite(value)` and the
decimal text `str(value)` (the source performs no float arithmetic). -/
structure PyFloat where
  finite : Bool
  repr : String
  deriving DecidableEq, Repr

/-- Python values that can reach `Point._fields` (and the `tag`/`field`
arguments): strings, booleans, floats, integers, `None`, lists/tuples, and
anything else. -/
inductive PyVal where
  | str (s : String)
  | bool (b : Bool)
  | float (f : PyFloat)
  | int (n : Int)
  | none
  | list (items : List PyVal)
  | other

/-- `value is None`. -/
def PyVal.isNone : PyVal → Bool
  | .none => true
  | _ => false

/-- `isinstance(value, str)`. -/
def PyVal.isStr : PyVal → Bool
  | .str _ => true
  | _ => false

/-- `isinstance(value, bool)`. -/
def PyVal.isBool : PyVal → Bool
  | .bool _ => true
  | _ => false

/-- `isinstance(value, float)` (a python bool or int is not a float). -/
def PyVal.isFloat : PyVal → Bool
  | .float _ => true
  | _ => false

/-- `isinstance(value, int)` — in python `bool` is a subclass of `int`, so a
boolean passes this test too. -/
def PyVal.isIntLike : PyVal → Bool
  | .int _ => true
  | .bool _ => true
  | _ => false

/-- `isinstance(value, (list, tuple))`. -/
def PyVal.isList : PyVal → Bool
  | .list _ => true
  | _ => false

def PyVal.asStr : PyVal → String
  | .str s => s
  | _ => ""

def PyVal.asBool : PyVal → Bool
  | .bool b => b
  | _ => false

def PyVal.asFloat : PyVal → PyFloat
  | .float f => f
  | _ => ⟨true, "0.0"⟩

def PyVal.asInt : PyVal → Int
  | .int n => n
  | .bool b => if b then 1 else 0
  | _ => 0

def PyVal.listItems : PyVal → List PyVal
  | .list items => items
  | _ => []

/-! ### Timestamps (`_to_nanos`, `_convert_timestamp`) -/

/-- A python `timedelta`: normalized to days (possibly negative), seconds in
`[0, 86400)` and microseconds in `[0, 10^6)`. -/
structure Timedelta where
  days : Int
  seconds : Nat
  micros : Nat
  deriving DecidableEq, Repr

/-- `_to_nanos(timestamp)`: the nanosecond count computed from the timedelta
`timestamp - EPOCH`. -/
def to_nanos (d : Timedelta) : Int :=
  d.days * 86400 * 10 ^ 9 + (d.seconds : Int) * 10 ^ 9 + (d.micros : Int) * 10 ^ 3

/-- A python `datetime`: whether it carries `tzinfo`, and the timedelta
`self - EPOCH` once the wall clock is read in UTC.  `UTC.localize` attaches
the UTC zone to a naive datetime without moving the wall clock, so a naive
datetime's delta from the epoch is exactly this stored value. -/
structure Datetime where
  tzinfo : Bool
  sub_epoch : Timedelta
  deriving DecidableEq, Repr

/-- `UTC.localize`: attach the UTC zone to a naive datetime. -/
def utc_localize (d : Datetime) : Datetime :=
  { d with tzinfo := true }

/-- The arguments `_convert_timestamp` can receive: `None`, an integer, a
string, a datetime, or any other object. -/
inductive TimeInput where
  | tnone
  | tint (n : Int)
  | tstr (s : String)
  | tdt (d : Datetime)
  | tother

/-- `_convert_timestamp`'s result: the empty-string sentinel or an integer. -/
inductive TimeVal where
  | empty
  | ival (n : Int)
  deriving DecidableEq, Repr

/-- `_convert_timestamp(timestamp)`.  `parse` stands for
`dateutil.parser.parse` (external library, modelled as an arbitrary function
from strings to datetimes). -/
def convert_timestamp (parse : String → Datetime) : TimeInput → Except PyErr TimeVal
  | .tnone => .ok .empty
  | .tint n => .ok (.ival n)  -- assume precision is correct if timestamp is int
  | .tstr s =>
      let d := parse s
      let d := if d.tzinfo then d else utc_localize d
      .ok (.ival (to_nanos d.sub_epoch))
  | .tdt d =>
      let d := if d.tzinfo then d else utc_localize d
      .ok (.ival (to_nanos d.sub_epoch))
  | .tother => .error .valueError

/-! ### The Point builder and encoder -/

/-- `Point.__init__` state.  Tag values are the data model's strings or
`None` (`Option.none` models a null tag value placed in `_tags`); field
values are arbitrary `PyVal`s, as the encoder type-dispatches on them. -/
structure PointState where
  measurement : String
  tags : List (String × Option String)
  fields : List (String × PyVal)
  time : TimeInput
  write_precision : String

/-- `Point(measurement)`. -/
def pointInit (measurement : String) : PointState :=
  { measurement := measurement, tags := [], fields := [],
    time := .tnone, write_precision := "ns" }

/-- `Point.tag(key, value)`.  The embedding keys the tag map by strings; in
the list/tuple branch each zipped pair is stored through its string
component (every claim about this method stays outside that branch). -/
def tagMethod (p : PointState) (key value : PyVal) : Except PyErr PointState :=
  let p :=
    if key.isStr && value.isStr then
      { p with tags := pset p.tags key.asStr (some value.asStr) }
    else p
  if key.isList && value.isList then
    if key.listItems.length = value.listItems.length then
      .ok { p with
              tags := (key.listItems.zip value.listItems).foldl
                (fun acc kv => pset acc kv.1.asStr (some kv.2.asStr)) p.tags }
    else .error .assertError
  else .ok p

/-- `isinstance(value, (str, float, bool, int))`. -/
def fieldStorable (v : PyVal) : Bool :=
  v.isStr || v.isFloat || v.isBool || v.isIntLike

/-- `Point.field(field, value)`.  As with `tagMethod`, list/tuple keys are
stored through their string component. -/
def fieldMethod (p : PointState) (key value : PyVal) : Except PyErr PointState :=
  let p :=
    if key.isStr && fieldStorable value then
      { p with fields := pset p.fields key.asStr value }
    else p
  if key.isList && value.isList then
    if key.listItems.length = value.listItems.length then
      .ok { p with
              fields := (key.listItems.zip value.listItems).foldl
                (fun acc kv => pset acc kv.1.asStr kv.2) p.fields }
    else .error .assertError
  else .ok p

/-- Python string order: lexicographic on code points (what `sorted` uses on
the unique tag keys). -/
def charListLe : List Char → List Char → Bool
  | [], _ => true
  | _ :: _, [] => false
  | a :: as, b :: bs =>
      if a.toNat < b.toNat then true
      else if b.toNat < a.toNat then false
      else charListLe as bs

def pyStrLe (a b : String) : Bool :=
  charListLe a.toList b.toList

/-- Insert one tag pair into a key-sorted list. -/
def insertTag (x : String × Option String) :
    List (String × Option String) → List (String × Option String)
  | [] => [x]
  | y :: t => if pyStrLe x.1 y.1 then x :: y :: t else y :: insertTag x t

/-- `sorted(self._tags.items())` (keys are unique, so key order decides). -/
def sortTags (l : List (String × Option String)) : List (String × Option String) :=
  l.foldr insertTag []

/-- One iteration of the tag loop: skip a null value, escape key and value
with `escape_name`, skip the pair if either escaped part is empty. -/
def renderTagPair (key : String) (value : Option String) : String :=
  match value with
  | Option.none => ""  -- if value is None: continue
  | some s =>
      let tag := escapeName key
      let v := escapeName s
      if tag ≠ "" && v ≠ "" then "," ++ tag ++ "=" ++ v else ""

/-- In-order concatenation of rendered entries (the loop's `+=`). -/
def concatAll : List String → String
  | [] => ""
  | s :: t => s ++ concatAll t

/-- The accumulated `tags` string of `to_line_protocol`. -/
def tagsRender (l : List (String × Option String)) : String :=
  concatAll ((sortTags l).map (fun kv => renderTagPair kv.1 kv.2))

/-- One iteration of the field loop: `None` skipped, then the ordered
`isinstance` chain string → bool → float → int (each rendered entry carries
its leading comma, as in the source's accumulation). -/
def renderFieldEntry (key : String) (v : PyVal) : String :=
  if v.isNone then ""  -- if value is None: continue
  else
    let field := escapeName key
    if v.isStr then "," ++ field ++ "=\"" ++ escapeFieldValue v.asStr ++ "\""
    else if v.isBool then
      -- str(value).lower(): "True"/"False" lowercased
      "," ++ field ++ "=" ++ (if v.asBool then "true" else "false")
    else if v.isFloat then
      if (v.asFloat).finite then "," ++ field ++ "=" ++ (v.asFloat).repr
      else ""  -- if not math.isfinite(value): continue
    else if v.isIntLike then "," ++ field ++ "=" ++ toString v.asInt ++ "i"
    else ""

/-- The accumulated `fields` string of `to_line_protocol` (before the
leading comma is trimmed). -/
def fieldsRender (l : List (String × PyVal)) : String :=
  concatAll (l.map (fun kv => renderFieldEntry kv.1 kv.2))

/-- `Point.to_line_protocol()`. -/
def to_line_protocol (parse : String → Datetime) (p : PointState) :
    Except PyErr String :=
  let measurement := escapeMeasurement p.measurement
  let tags := tagsRender p.tags
  let fields := fieldsRender p.fields
  if fields = "" then .ok ""
  else
    let fields := fields.drop 1  -- trim the start ','
    match convert_timestamp parse p.time with
    | .error e => .error e
    | .ok t =>
        let time_format := match t with
          | .empty => ""
          | .ival n => " " ++ toString n
        .ok (measurement ++ tags ++ " " ++ fields ++ time_format)

/-! ### The HTTP client (`client.py`) -/

/-- An HTTP session object (`requests.Session`); abstract token. -/
structure Session where
  id : Nat
  deriving DecidableEq, Repr

/-- The session `requests.Session()` creates inside `__init__`. -/
def freshSession : Session := ⟨0⟩

/-- A JSON value inside a bind-parameter object. -/
inductive JVal where
  | s (v : String)
  | n (v : Int)
  | b (v : Bool)
  | null
  deriving DecidableEq, Repr

/-- A JSON object (a python dict run through `json.dumps`/`json.loads`). -/
abbrev JObj := List (String × JVal)

/-- A value stored in a request's `params` dict.  `jsonOf o` stands for the
JSON text `json.dumps(o)`; `json.loads` is its left inverse on such
values. -/
inductive ParamVal where
  | str (s : String)
  | int (n : Int)
  | pyNone
  | jsonOf (o : JObj)
  deriving DecidableEq, Repr

abbrev Params := List (String × ParamVal)

abbrev Headers := List (String × String)

/-- Bytes of `s.encode("utf-8")`. -/
def utf8Encode (s : String) : List Nat :=
  s.toUTF8.toList.map (fun b => b.toNat)

/-- A request body: the raw bytes, or `gzip.compress` of them (compression
modelled as an injective constructor). -/
inductive Body where
  | plain (bytes : List Nat)
  | gz (bytes : List Nat)
  deriving DecidableEq, Repr

/-- The HTTP request `self._session.request(...)` is handed. -/
structure HttpRequest where
  method : String
  url : String
  auth : String × String
  body : Option Body
  headers : Headers
  params : Params
  expectedCode : Nat
  deriving DecidableEq, Repr

/-- `OpenGeminiClient` state.  `sessionAttr = Option.none` models the
`_session` attribute never having been assigned. -/
structure ClientState where
  host : String
  port : Nat
  username : String
  password : String
  database : Option String
  baseurl : String
  gzip : Bool
  sessionAttr : Option Session
  headers : Headers
  writeHeaders : Headers
  deriving DecidableEq, Repr

/-- `OpenGeminiClient.__init__(host, port, username, password, database,
session, gzip)`.  The source assigns `self._session` only inside
`if session is None:`; there is no `else`, so a supplied session is dropped
and the attribute stays unset. -/
def clientInit (host : String) (port : Nat) (username password : String)
    (database : Option String) (session : Option Session) (g : Bool) :
    ClientState :=
  { host := host, port := port, username := username, password := password,
    database := database,
    baseurl := "http://" ++ host ++ ":" ++ toString port,
    gzip := g,
    sessionAttr :=
      match session with
      | Option.none => some freshSession  -- if session is None: self._session = requests.Session()
      | some _ => Option.none,
    headers := [("Content-type", "application/json"), ("Accept", "text/plain")],
    writeHeaders := [("Content-type", "application/octet-stream"),
                     ("Accept", "text/plain")] }

/-- The headers `request` adds when gzip is on. -/
def gzipHeaders : Headers :=
  [("Accept-Encoding", "gzip"), ("Content-Encoding", "gzip")]

/-- `OpenGeminiClient.request(url, method, data, params,
expected_response_code, header)`: the request that reaches the session, or
the `AttributeError` raised when `_session` was never assigned. -/
def mk_request (st : ClientState) (url method : String) (data : Option (List Nat))
    (params : Params) (expected : Nat) (header : Option Headers) :
    Except PyErr HttpRequest :=
  let header := match header with
    | some h => h
    | Option.none => st.headers
  let fullUrl := st.baseurl ++ "/" ++ url
  let header := if st.gzip then dictUpdate header gzipHeaders else header
  let body : Option Body :=
    if st.gzip then data.map Body.gz  -- data = gzip.compress(data)
    else data.map Body.plain
  match st.sessionAttr with
  | Option.none => .error .attrError  -- self._session does not exist
  | some _ =>
      .ok { method := method, url := fullUrl,
            auth := (st.username, st.password), body := body,
            headers := header, params := params, expectedCode := expected }

/-- The `db` value a params dict receives from `self._database`. -/
def dbParam (database : Option String) : ParamVal :=
  match database with
  | some d => ParamVal.str d
  | Option.none => ParamVal.pyNone

/-- The parameter-construction part of `OpenGeminiClient.query` (lines
building `params` before the delegation to `request`). -/
def query_params (st : ClientState) (q : String) (params0 : Option Params)
    (chunked : Bool) (chunk_size : Int) (epoch : Option String)
    (bind_params : Option JObj) : Params :=
  let params := match params0 with
    | some ps => ps
    | Option.none => []
  let params := match epoch with
    | some e => pset params "epoch" (.str e)
    | Option.none => params
  let params :=
    if chunked then
      let params := pset params "chunked" (.str "true")
      if chunk_size > 0 then pset params "chunk_size" (.int chunk_size) else params
    else params
  let params := match bind_params with
    | some bp =>
        -- params_dict = json.loads(params.get("params", "{}"))
        -- a prior value that is not JSON text would make json.loads raise;
        -- the modelled states carry priors only as `jsonOf`
        let pd := match pget params "params" with
          | some (ParamVal.jsonOf o) => o
          | _ => []
        pset params "params" (.jsonOf (dictUpdate pd bp))
    | Option.none => params
  let params := pset params "q" (.str q)
  -- if params.get("db", None) is None: params["db"] = self._database
  match pget params "db" with
  | Option.none => pset params "db" (dbParam st.database)
  | some ParamVal.pyNone => pset params "db" (dbParam st.database)
  | some _ => params

/-- `OpenGeminiClient.query(...)`: build the params and delegate to
`request` with the query endpoint and the given method. -/
def query_call (st : ClientState) (q : String) (params0 : Option Params)
    (chunked : Bool) (chunk_size : Int) (epoch : Option String)
    (bind_params : Option JObj) (method : String) : Except PyErr HttpRequest :=
  mk_request st "query" method Option.none
    (query_params st q params0 chunked chunk_size epoch bind_params)
    200 Option.none

/-- `"\n".join(data)` on a list of strings. -/
def pyJoin (sep : String) : List String → String
  | [] => ""
  | [x] => x
  | x :: xs => x ++ sep ++ pyJoin sep xs

/-- `OpenGeminiClient.write(point, precision)`. -/
def write_call (st : ClientState) (point : String) (precision : String) :
    Except PyErr HttpRequest :=
  let params : Params := [("db", dbParam st.database), ("precision", .str precision)]
  let data := utf8Encode (pyJoin "\n" [point] ++ "\n")
  mk_request st "write" "POST" (some data) params 204 (some st.writeHeaders)

/-! ### DDL statement builders -/

/-- `create_database(dbname)`'s statement (the identifier is interpolated
raw, without `escape_name`). -/
def create_database_stmt (dbname : String) : String :=
  "CREATE DATABASE " ++ dbname

/-- `drop_database(dbname)`'s statement. -/
def drop_database_stmt (dbname : String) : String :=
  "DROP DATABASE " ++ dbname

/-- `create_user(username, password, admin)`'s statement. -/
def create_user_stmt (username password : String) (admin : Bool) : String :=
  let q := "CREATE USER " ++ username ++ " WITH PASSWORD " ++ password
  if admin then q ++ " WITH ALL PRIVILEGES" else q

/-- `drop_user(username)`'s statement. -/
def drop_user_stmt (username : String) : String :=
  "DROP USER " ++ username

/-- `create_retention_policy(...)`'s statement.  The source's
`query += ' SHARD DURATION {shard_duration}'` lacks the f-string prefix, so
the literal text `{shard_duration}` is appended, not the argument; the
clause is also gated on python truthiness (skipped for the empty string). -/
def create_retention_policy_stmt (rp database duration : String)
    (replication : Int) (isDefault : Bool) (shard_duration : Option String) :
    String :=
  let q := "CREATE RETENTION POLICY \"" ++ escapeName rp ++ "\" ON \""
    ++ escapeName database ++ "\" DURATION " ++ duration
    ++ " REPLICATION " ++ toString replication
  let q := match shard_duration with
    | some s => if s ≠ "" then q ++ " SHARD DURATION \x7bshard_duration\x7d" else q
    | Option.none => q
  if isDefault then q ++ " DEFAULT" else q

/-- `alter_retention_policy(...)`'s statement.  Clause order is DURATION,
SHARD DURATION, REPLICATION, DEFAULT; each optional clause is gated on
python truthiness (`if duration:` skips the empty string, `if replication:`
skips zero, DEFAULT only on `default is True`). -/
def alter_retention_policy_stmt (rp database : String)
    (duration : Option String) (replication : Option Int)
    (isDefault : Option Bool) (shard_duration : Option String) : String :=
  let q := "ALTER RETENTION POLICY \"" ++ escapeName rp ++ "\" ON \""
    ++ escapeName database ++ "\""
  let q := match duration with
    | some s => if s ≠ "" then q ++ " DURATION " ++ s else q
    | Option.none => q
  let q := match shard_duration with
    | some s => if s ≠ "" then q ++ " SHARD DURATION " ++ s else q
    | Option.none => q
  let q := match replication with
    | some r => if r ≠ 0 then q ++ " REPLICATION " ++ toString r else q
    | Option.none => q
  match isDefault with
  | some true => q ++ " DEFAULT"
  | _ => q

/-- `drop_retention_policy(...)`'s statement. -/
def drop_retention_policy_stmt (rp database : String) : String :=
  "DROP RETENTION POLICY \"" ++ escapeName rp ++ "\" ON \""
    ++ escapeName database ++ "\""

/-- `show_retention_policy(...)`'s statement. -/
def show_retention_policy_stmt (database : String) : String :=
  "SHOW RETENTION POLICIES ON \"" ++ escapeName database ++ "\""

/-! ### Concrete instances used to evaluate the model -/

/-- A stand-in for `dateutil.parser.parse` where no string timestamp is in
play. -/
def dummyParse : String → Datetime := fun _ => ⟨true, ⟨0, 0, 0⟩⟩

/-- The point of `test_point.py`: tags and fields assigned directly, with
empty, null and backslash-carrying values. -/
def examplePoint : PointState :=
  { measurement := "test",
    tags := [("empty_tag", some ""), ("none_tag", Option.none),
             ("backslash_tag", some "C:\\"), ("string_tag", some "hello")],
    fields := [("int_val", .int 1), ("float_val", .float ⟨true, "1.1"⟩),
               ("none_field", .none), ("bool_val", .bool true),
               ("string_val", .str "hello")],
    time := .tnone, write_precision := "ns" }

/-- A client constructed without an external session, with a database. -/
def exampleClient : ClientState :=
  clientInit "localhost" 8086 "u" "p" (some "db") Option.none false

/-- A caller-supplied params dict carrying a prior JSON `params` value. -/
def exampleParams0 : Params :=
  [("params", ParamVal.jsonOf [("x", JVal.n 1)])]

/-- Bind parameters overlapping the prior object on key `x`. -/
def exampleBind : JObj :=
  [("x", JVal.n 2), ("y", JVal.s "a")]

/-! ### Dictionary lemmas -/

theorem pget_pset {α : Type} (d : List (String × α)) (k : String) (v : α)
    (k' : String) :
    pget (pset d k v) k' = if k = k' then some v else pget d k' := by
  induction d with
  | nil => simp [pget, pset]
  | cons a t ih =>
      obtain ⟨ak, av⟩ := a
      by_cases hak : ak = k
      · subst hak
        by_cases h : ak = k' <;> simp [pget, pset, h]
      · by_cases ha : ak = k'
        · subst ha
          have hk : ¬k = ak := fun hh => hak hh.symm
          simp [pget, pset, hak, hk]
        · simp [pget, pset, hak, ha, ih]

theorem pget_none_of_not_mem {α : Type} (l : List (String × α)) (k : String)
    (h : k ∉ l.map Prod.fst) : pget l k = Option.none := by
  induction l with
  | nil => rfl
  | cons a t ih =>
      simp only [List.map_cons, List.mem_cons] at h
      push_neg at h
      have hne : ¬a.1 = k := fun hh => h.1 hh.symm
      simp [pget, hne, ih h.2]

theorem pget_dictUpdate {α : Type} (d u : List (String × α)) (k : String)
    (h : (u.map Prod.fst).Nodup) :
    pget (dictUpdate d u) k = (pget u k).elim (pget d k) some := by
  induction u generalizing d with
  | nil => simp [dictUpdate, pget]
  | cons a t ih =>
      simp only [List.map_cons, List.nodup_cons] at h
      have step : dictUpdate d (a :: t) = dictUpdate (pset d a.1 a.2) t := rfl
      rw [step, ih _ h.2]
      by_cases hk : a.1 = k
      · subst hk
        rw [pget_none_of_not_mem t a.1 h.1]
        simp [pget, pget_pset]
      · cases hpt : pget t k <;> simp [pget, hk, pget_pset, hpt]

/-! ### Rendering lemmas -/

theorem fieldsRender_cons (a : String × PyVal) (l : List (String × PyVal)) :
    fieldsRender (a :: l) = renderFieldEntry a.1 a.2 ++ fieldsRender l := rfl

theorem fieldsRender_drop_mid (pre post : List (String × PyVal)) (k : String)
    (v : PyVal) (h : renderFieldEntry k v = "") :
    fieldsRender (pre ++ (k, v) :: post) = fieldsRender (pre ++ post) := by
  induction pre with
  | nil => simp [fieldsRender_cons, h]
  | cons a t ih => rw [List.cons_append, List.cons_append,
      fieldsRender_cons, fieldsRender_cons, ih]

/-! ### The claims -/

/-- C1: the point with measurement `test`, tags `empty_tag=""`,
`none_tag=None`, `backslash_tag="C:\"`, `string_tag="hello"` and fields
`int_val=1`, `float_val=1.1`, `none_field=None`, `bool_val=True`,
`string_val="hello"` renders its tags sorted by key with the empty- and
null-valued tags dropped, and its fields in insertion order with the null
field dropped. -/
theorem example_point_line_protocol :
    to_line_protocol dummyParse examplePoint =
      Except.ok "test,backslash_tag=C:\\,string_tag=hello int_val=1i,float_val=1.1,bool_val=true,string_val=\"hello\"" :=
  rfl

/-- C2: a boolean field value renders as lowercase `true`/`false` with no
quotes and no trailing `i`, even though a boolean also passes python's
`isinstance(value, int)` test (the string → bool → float → int order of the
encoder's chain dispatches it before the integer arm). -/
theorem bool_field_renders_lowercase (key : String) (b : Bool) :
    PyVal.isIntLike (.bool b) = true ∧
      renderFieldEntry key (.bool b) =
        "," ++ escapeName key ++ "=" ++ (if b then "true" else "false") :=
  ⟨rfl, rfl⟩

/-- C3: a non-finite float field is absent from the rendered field list, a
null field is absent, a null tag renders to nothing, and a point whose
rendered field list is empty serializes to the empty string whatever its
measurement, tags and time are (the encoder returns before the timestamp is
even converted). -/
theorem drop_and_empty_render :
    (∀ pre post k f, f.finite = false →
        fieldsRender (pre ++ (k, PyVal.float f) :: post) =
          fieldsRender (pre ++ post)) ∧
    (∀ pre post k,
        fieldsRender (pre ++ (k, PyVal.none) :: post) =
          fieldsRender (pre ++ post)) ∧
    (∀ k, renderTagPair k Option.none = "") ∧
    (∀ parse p, fieldsRender p.fields = "" →
        to_line_protocol parse p = Except.ok "") := by
  refine ⟨fun pre post k f hf => ?_, fun pre post k => ?_, fun k => rfl,
    fun parse p hp => ?_⟩
  · exact fieldsRender_drop_mid pre post k _ (by
      simp [renderFieldEntry, PyVal.isNone, PyVal.isStr, PyVal.isBool,
        PyVal.isFloat, PyVal.asFloat, hf])
  · exact fieldsRender_drop_mid pre post k _ rfl
  · simp [to_line_protocol, hp]

/-- C4: `_convert_timestamp` maps `None` to the empty-string sentinel,
returns every integer unchanged, converts a string (through the parser) or
a datetime — naive ones assumed UTC — to
`days*86400*10^9 + seconds*10^9 + microseconds*10^3` nanoseconds since the
epoch, and raises `ValueError` on any other input type. -/
theorem convert_timestamp_contract (parse : String → Datetime) :
    convert_timestamp parse .tnone = Except.ok .empty ∧
    (∀ n, convert_timestamp parse (.tint n) = Except.ok (.ival n)) ∧
    (∀ s, convert_timestamp parse (.tstr s) =
        Except.ok (.ival ((parse s).sub_epoch.days * 86400 * 10 ^ 9 +
          ((parse s).sub_epoch.seconds : Int) * 10 ^ 9 +
          ((parse s).sub_epoch.micros : Int) * 10 ^ 3))) ∧
    (∀ d, convert_timestamp parse (.tdt d) =
        Except.ok (.ival (d.sub_epoch.days * 86400 * 10 ^ 9 +
          (d.sub_epoch.seconds : Int) * 10 ^ 9 +
          (d.sub_epoch.micros : Int) * 10 ^ 3))) ∧
    convert_timestamp parse .tother = Except.error .valueError := by
  refine ⟨rfl, fun n => rfl, fun s => ?_, fun d => ?_, rfl⟩
  · cases h : (parse s).tzinfo <;>
      simp [convert_timestamp, utc_localize, to_nanos, h]
  · cases h : d.tzinfo <;>
      simp [convert_timestamp, utc_localize, to_nanos, h]

/-- C5: with `shard_duration="2h"` supplied, the generated CREATE RETENTION
POLICY statement carries the literal text `SHARD DURATION {shard_duration}`
(the source line lacks the f-string prefix) and not the supplied value. -/
theorem shard_duration_clause_literal :
    create_retention_policy_stmt "rp" "db" "1h" 1 false (some "2h") =
      "CREATE RETENTION POLICY \"rp\" ON \"db\" DURATION 1h REPLICATION 1 SHARD DURATION \x7bshard_duration\x7d" ∧
    strContains (create_retention_policy_stmt "rp" "db" "1h" 1 false (some "2h"))
      "SHARD DURATION 2h" = false :=
  ⟨rfl, rfl⟩

/-- C6 counterexample: `create_database` and `create_user` interpolate the
raw identifier, so for the database name `"a b"` (whose `escape_name` form
is `a\ b`) the generated statement does not contain the escaped form. -/
theorem ddl_unescaped_identifier_cex :
    create_database_stmt "a b" = "CREATE DATABASE a b" ∧
    escapeName "a b" = "a\\ b" ∧
    strContains (create_database_stmt "a b") (escapeName "a b") = false ∧
    strContains (create_user_stmt "u v" "pw" false) (escapeName "u v") = false :=
  ⟨rfl, rfl, rfl, rfl⟩

/-- C6 amended: all four retention-policy helpers (create, alter, drop,
show) interpolate their retention-policy-name and database identifiers
escaped with `escape_name`, while `create_database`, `drop_database`,
`create_user` and `drop_user` interpolate the raw strings without
escaping. -/
theorem ddl_identifier_escaping_split (dbname u pw rp db duration : String)
    (repl : Int) :
    create_database_stmt dbname = "CREATE DATABASE " ++ dbname ∧
    drop_database_stmt dbname = "DROP DATABASE " ++ dbname ∧
    create_user_stmt u pw false = "CREATE USER " ++ u ++ " WITH PASSWORD " ++ pw ∧
    drop_user_stmt u = "DROP USER " ++ u ∧
    create_retention_policy_stmt rp db duration repl false Option.none =
      "CREATE RETENTION POLICY \"" ++ escapeName rp ++ "\" ON \"" ++
        escapeName db ++ "\" DURATION " ++ duration ++ " REPLICATION " ++
        toString repl ∧
    alter_retention_policy_stmt rp db Option.none Option.none Option.none
        Option.none =
      "ALTER RETENTION POLICY \"" ++ escapeName rp ++ "\" ON \"" ++
        escapeName db ++ "\"" ∧
    drop_retention_policy_stmt rp db =
      "DROP RETENTION POLICY \"" ++ escapeName rp ++ "\" ON \"" ++
        escapeName db ++ "\"" ∧
    show_retention_policy_stmt db =
      "SHOW RETENTION POLICIES ON \"" ++ escapeName db ++ "\"" :=
  ⟨rfl, rfl, rfl, rfl, rfl, rfl, rfl, rfl⟩

/-- C7: `__init__` assigns `self._session` only when no session is passed;
an externally supplied session is dropped, the attribute stays unset, and
the first `request` on such a client raises `AttributeError` instead of
using the supplied session. -/
theorem external_session_discarded :
    (clientInit "localhost" 8086 "u" "p" Option.none (some ⟨7⟩) false).sessionAttr =
      Option.none ∧
    (clientInit "localhost" 8086 "u" "p" Option.none Option.none false).sessionAttr =
      some freshSession ∧
    mk_request (clientInit "localhost" 8086 "u" "p" Option.none (some ⟨7⟩) false)
      "query" "GET" Option.none [] 200 Option.none = Except.error .attrError :=
  ⟨rfl, rfl, rfl⟩

/-- C8: a query call with statement `S` and no caller-supplied `db` sends
`q = S` and `db` equal to the client's current database; with `bind_params`
supplied, the prior JSON `params` object is decoded, merged with
`bind_params` winning per key, and re-encoded under `params`. -/
theorem query_params_content (st : ClientState) (S : String) (params0 : Params)
    (o bind : JObj) (d : String) (chunked : Bool) (cs : Int)
    (epoch : Option String)
    (hdb : pget params0 "db" = Option.none)
    (hst : st.database = some d)
    (hprior : pget params0 "params" = some (ParamVal.jsonOf o))
    (hnodup : (bind.map Prod.fst).Nodup) :
    pget (query_params st S (some params0) chunked cs epoch (some bind)) "q" =
      some (ParamVal.str S) ∧
    pget (query_params st S (some params0) chunked cs epoch (some bind)) "db" =
      some (ParamVal.str d) ∧
    pget (query_params st S (some params0) chunked cs epoch (some bind)) "params" =
      some (ParamVal.jsonOf (dictUpdate o bind)) ∧
    (∀ k, pget (dictUpdate o bind) k = (pget bind k).elim (pget o k) some) := by
  refine ⟨?_, ?_, ?_, fun k => pget_dictUpdate o bind k hnodup⟩ <;>
    cases epoch <;> cases chunked <;> by_cases hcs : cs > 0 <;>
      simp [query_params, pget_pset, hprior, hdb, hst, dbParam, hcs]

/-- C9: `write` transmits exactly `L + "\n"` UTF-8 encoded (gzip-compressed
when the client's gzip flag is on) as a POST to the write endpoint, with
the current database and the supplied precision as parameters, expecting
status 204. -/
theorem write_request_contract (st : ClientState) (L prec d : String)
    (s : Session) (hs : st.sessionAttr = some s) (hd : st.database = some d) :
    (write_call st L prec).map (fun r => r.method) = Except.ok "POST" ∧
    (write_call st L prec).map (fun r => r.url) =
      Except.ok (st.baseurl ++ "/" ++ "write") ∧
    (write_call st L prec).map (fun r => r.body) =
      Except.ok (some (if st.gzip then Body.gz (utf8Encode (L ++ "\n"))
        else Body.plain (utf8Encode (L ++ "\n")))) ∧
    (write_call st L prec).map (fun r => pget r.params "db") =
      Except.ok (some (ParamVal.str d)) ∧
    (write_call st L prec).map (fun r => pget r.params "precision") =
      Except.ok (some (ParamVal.str prec)) ∧
    (write_call st L prec).map (fun r => r.expectedCode) = Except.ok 204 := by
  have hjoin : pyJoin "\n" [L] = L := rfl
  cases hg : st.gzip <;>
    simp [write_call, mk_request, hs, hd, hjoin, hg, pget, dbParam, Except.map]

/-- C9 witness: the contract evaluated on a concrete client and line. -/
theorem write_request_contract_witness :
    (write_call exampleClient "weather temperature=82i" "ns").map
        (fun r => r.method) = Except.ok "POST" ∧
    (write_call exampleClient "weather temperature=82i" "ns").map
        (fun r => r.url) = Except.ok (exampleClient.baseurl ++ "/" ++ "write") ∧
    (write_call exampleClient "weather temperature=82i" "ns").map
        (fun r => r.body) =
      Except.ok (some (if exampleClient.gzip then
          Body.gz (utf8Encode ("weather temperature=82i" ++ "\n"))
        else Body.plain (utf8Encode ("weather temperature=82i" ++ "\n")))) ∧
    (write_call exampleClient "weather temperature=82i" "ns").map
        (fun r => pget r.params "db") = Except.ok (some (ParamVal.str "db")) ∧
    (write_call exampleClient "weather temperature=82i" "ns").map
        (fun r => pget r.params "precision") =
      Except.ok (some (ParamVal.str "ns")) ∧
    (write_call exampleClient "weather temperature=82i" "ns").map
        (fun r => r.expectedCode) = Except.ok 204 :=
  write_request_contract exampleClient "weather temperature=82i" "ns" "db"
    freshSession rfl rfl

/-- C8 witness: the query contract evaluated on a concrete client, prior
`params` object and bind parameters. -/
theorem query_params_content_witness :
    pget (query_params exampleClient "select 1" (some exampleParams0) true 5
        (some "ns") (some exampleBind)) "q" = some (ParamVal.str "select 1") ∧
    pget (query_params exampleClient "select 1" (some exampleParams0) true 5
        (some "ns") (some exampleBind)) "db" = some (ParamVal.str "db") ∧
    pget (query_params exampleClient "select 1" (some exampleParams0) true 5
        (some "ns") (some exampleBind)) "params" =
      some (ParamVal.jsonOf (dictUpdate [("x", JVal.n 1)] exampleBind)) ∧
    (∀ k, pget (dictUpdate [("x", JVal.n 1)] exampleBind) k =
      (pget exampleBind k).elim (pget [("x", JVal.n 1)] k) some) :=
  query_params_content exampleClient "select 1" exampleParams0
    [("x", JVal.n 1)] exampleBind "db" true 5 (some "ns") rfl rfl rfl
    (by decide)

/-- C10: `tag` with a string key and a non-string value, and `field` with a
string key and a value outside {string, float, bool, int}, leave the point
unchanged, raise nothing and return the same point. -/
theorem tag_field_unsupported_noop (p : PointState) (k k2 : String)
    (v w : PyVal) (hv : v.isStr = false) (hw : fieldStorable w = false) :
    tagMethod p (.str k) v = Except.ok p ∧
      fieldMethod p (.str k2) w = Except.ok p := by
  have h1 : (PyVal.str k).isStr = true := rfl
  have h2 : (PyVal.str k).isList = false := rfl
  have h3 : (PyVal.str k2).isStr = true := rfl
  have h4 : (PyVal.str k2).isList = false := rfl
  constructor
  · simp [tagMethod, h1, h2, hv]
  · simp [fieldMethod, h3, h4, hw]

/-- C10 witness: an integer tag value and a `None` field value are ignored
on a concrete point. -/
theorem tag_field_unsupported_noop_witness :
    tagMethod (pointInit "m") (.str "k") (.int 3) = Except.ok (pointInit "m") ∧
      fieldMethod (pointInit "m") (.str "f") PyVal.none =
        Except.ok (pointInit "m") :=
  tag_field_unsupported_noop (pointInit "m") "k" "f" (.int 3) PyVal.none rfl rfl

end OpenGemini
